import Mathlib

/-!
Shallow embedding of the switch-port reconciliation engine of the
networking-ansible ML2 mechanism driver (networking_ansible/ml2/mech_driver.py),
together with theorems checking the natural-language specification against it.

Python dictionaries and object stores are modelled as association lists, machine
state as an explicit `DB` record, device calls as a `DeviceCall` trace, and
raised exceptions as `Except EngineError`.  Python truthiness of optional
strings and lists is modelled explicitly.
-/

/-- Device-owner constant for compute instance ports.  Models
networking_ansible.constants.COMPUTE_NOVA, defined outside the provided
sources. -/
def COMPUTE_NOVA : String := "compute:nova"

/-- VNIC type for bare-metal ports (neutron_lib portbindings.VNIC_BAREMETAL). -/
def VNIC_BAREMETAL : String := "baremetal"

/-- VNIC type for normal ports (neutron_lib portbindings.VNIC_NORMAL). -/
def VNIC_NORMAL : String := "normal"

/-- VNIC type for SR-IOV passthrough ports (neutron_lib
portbindings.VNIC_DIRECT). -/
def VNIC_DIRECT : String := "direct"

/-- VNIC types supported by the driver (networking_ansible.constants
SUPPORTED_TYPES, defined outside the provided sources). -/
def SUPPORTED_TYPES : List String := [VNIC_BAREMETAL, VNIC_NORMAL, VNIC_DIRECT]

/-- One entry of a port's local_link_information list.  Each field models a
dictionary key that may be absent. -/
structure LLIEntry where
  switch_id : Option String
  switch_info : Option String
  port_id : Option String
deriving DecidableEq, Repr

/-- The binding:profile blob of a port. -/
structure Profile where
  lli : Option (List LLIEntry)
  pci_slot : Option String
deriving DecidableEq, Repr

/-- One binding row of a stored port object. -/
structure PortBinding where
  host : String
  profile : Profile
deriving DecidableEq, Repr

/-- A virtual port.  The same record serves as model for both the event-payload
dictionary and the stored Port object: `binding_host_id` and `profile` model the
dictionary keys, `bindings` models the stored object's binding rows. -/
structure Port where
  id : String
  mac_address : String
  network_id : String
  device_owner : String
  vnic_type : String
  binding_host_id : String
  profile : Profile
  bindings : List PortBinding
deriving DecidableEq, Repr

/-- A network segment row. -/
structure Segment where
  segmentation_id : Nat
  physical_network : String
  network_type : String
deriving DecidableEq, Repr

/-- A stored network object with its segments. -/
structure Network where
  id : String
  segments : List Segment
deriving DecidableEq, Repr

/-- The network dictionary carried by a network event (context.current):
provider network type, provider segmentation id (None modelled as `none`),
provider physical network. -/
structure NetworkDict where
  id : String
  network_type : String
  segmentation_id : Option Nat
  physical_network : String
deriving DecidableEq, Repr

/-- A trunk sub-port, carrying its member segmentation id. -/
structure SubPort where
  segmentation_id : Nat
deriving DecidableEq, Repr

/-- A trunk object keyed by its parent port id. -/
structure Trunk where
  port_id : String
  sub_ports : List SubPort
deriving DecidableEq, Repr

/-- The control-plane object store visible through the db context: networks,
ports, trunks, and the global segment table queried by
NetworkSegment.get_objects. -/
structure DB where
  networks : List Network
  ports : List Port
  trunks : List Trunk
  segments : List Segment
deriving DecidableEq, Repr

/-- One switch's inventory entry; only the manage_vlans flag is relevant to the
claims (absent key modelled as `none`). -/
structure InventoryHost where
  manage_vlans : Option Bool
deriving DecidableEq, Repr

/-- The driver configuration: the switch inventory, the MAC-to-name map, and
the host-id to (switch name, switch port) mapping table. -/
structure MLConfig where
  inventory : List (String × InventoryHost)
  mac_map : List (String × String)
  port_mappings : List (String × List (String × String))
deriving DecidableEq, Repr

/-- Association-list lookup, modelling Python dict access by key. -/
def assocLookup {α : Type} (l : List (String × α)) (k : String) : Option α :=
  (l.find? (fun e => e.1 = k)).map (fun e => e.2)

/-- net_runr.has_host: the network-runner inventory holds exactly the hosts of
the ML2 inventory. -/
def hasHost (cfg : MLConfig) (name : String) : Bool :=
  cfg.inventory.any (fun e => e.1 = name)

/-- Python truthiness of an optional string (None and the empty string are
falsy). -/
def truthyStr : Option String → Bool
  | none => false
  | some s => s ≠ ""

/-- Python truthiness of an optional list (None and the empty list are
falsy). -/
def lliTruthy : Option (List LLIEntry) → Bool
  | none => false
  | some l => !l.isEmpty

/-- Errors raised by the engine.  The source raises MechanismDriverError with
distinct messages for the first five; the spec's error taxonomy names them
InvalidArgument (nullPort, missingSwitchInfo), UnknownSwitch and
NetworkNotFound.  linkInfoMissing models LocalLinkInfoMissingException;
indexError and attributeError model uncaught Python exceptions on empty lists
and absent attributes. -/
inductive EngineError
  | nullPort
  | missingSwitchInfo
  | unknownSwitch
  | networkNotFound
  | linkInfoMissing
  | indexError
  | attributeError
deriving DecidableEq, Repr

/-- Calls issued to the device operation gateway (network_runner), recorded as
a trace.  Arguments mirror the values the source passes at each call site;
delete_trunk_vlan receives the caller-resolved segmentation id, which may be
absent. -/
inductive DeviceCall
  | createVlan (switch : String) (vlan : Nat)
  | deleteVlan (switch : String) (vlan : Nat)
  | confAccessPort (switch : String) (port : String) (vlan : Nat)
  | confTrunkPort (switch : String) (port : String) (native : Nat)
      (members : List Nat)
  | addTrunkVlan (switch : String) (port : String) (vlan : Nat)
  | deleteTrunkVlan (switch : String) (port : String) (vlan : Option Nat)
  | deletePort (switch : String) (port : String)
deriving DecidableEq, Repr

/-- View of the network argument passed to topology resolution: just the
provider segmentation id read with network.get(SEGMENTATION_ID, ''), where the
empty default is modelled as `none`. -/
structure NetworkView where
  segmentation_id : Option Nat
deriving DecidableEq, Repr

/-- View of a stored network object as seen by topology resolution: its
provider segmentation id is that of its first segment. -/
def dbNetworkView (n : Network) : NetworkView :=
  { segmentation_id := (n.segments.head?).map (fun s => s.segmentation_id) }

/-- The _get_port_lli branch for event-payload dictionaries: None for an
unsupported VNIC type, otherwise the profile's local_link_information. -/
def get_port_lli_dict : Option Port → Option (List LLIEntry)
  | none => none
  | some p =>
    if SUPPORTED_TYPES.contains p.vnic_type then p.profile.lli else none

/-- The _get_port_lli branch for stored Port objects: bindings[0].profile's
local_link_information (an empty bindings list yields none). -/
def getPortLliDb : Option Port → Option (List LLIEntry)
  | none => none
  | some p =>
    match p.bindings with
    | [] => none
    | b :: _ => b.profile.lli

/-- Python str.replace on character lists: replace each non-overlapping
occurrence of a non-empty pattern left to right; the fuel bounds the scan and
is instantiated with the input length. -/
def replaceCharsGo (pat rep : List Char) : Nat → List Char → List Char
  | _, [] => []
  | 0, l => l
  | fuel + 1, c :: cs =>
    if pat ≠ [] ∧ pat.isPrefixOf (c :: cs) then
      rep ++ replaceCharsGo pat rep fuel (List.drop (pat.length - 1) cs)
    else c :: replaceCharsGo pat rep fuel cs

/-- Python str.replace on character lists. -/
def replaceChars (pat rep l : List Char) : List Char :=
  replaceCharsGo pat rep l.length l

/-- Normalization applied to the pci_slot value by _build_sriov_host_id:
split('.')[0], then strip the literal 0000: domain prefix and all colons. -/
def normalizePci (s : String) : String :=
  String.mk (replaceChars (String.data ":") []
    (replaceChars (String.data "0000:") []
      (List.takeWhile (fun ch => ch ≠ '.') (String.data s))))

/-- _build_sriov_host_id: append the normalized pci_slot to the host id.  An
absent pci_slot makes the Python code fail on None.split. -/
def build_sriov_host_id (port : Port) (host_id : String) :
    Except EngineError String :=
  match port.profile.pci_slot with
  | none => .error .attributeError
  | some pci => .ok (host_id ++ "-" ++ normalizePci pci)

/-- _switch_meta_from_link_info: resolve a bare-metal port from its first
local_link_information entry; missing or empty link info raises
LocalLinkInfoMissingException; the switch name falls back to the MAC map keyed
by the upper-cased switch MAC when the explicit name is falsy. -/
def switch_meta_from_link_info (cfg : MLConfig) (port : Port)
    (network : Option NetworkView) :
    Except EngineError (List (Option String × Option String) × Option Nat) :=
  match get_port_lli_dict (some port) with
  | none => .error .linkInfoMissing
  | some lli =>
    match lli.head? with
    | none => .error .linkInfoMissing
    | some first =>
      let switch_mac := (first.switch_id.getD "").toUpper
      let name0 := first.switch_info
      let switch_name :=
        if ¬ truthyStr name0 = true ∧ (assocLookup cfg.mac_map switch_mac).isSome
        then assocLookup cfg.mac_map switch_mac
        else name0
      .ok ([(switch_name, first.port_id)],
           network.bind (fun n => n.segmentation_id))

/-- _switch_meta_from_port_host_id: resolve a host-attached port via the
port_mappings table keyed by the binding host id, with the SR-IOV suffix
appended for direct ports; an absent key yields the empty mapping list. -/
def switch_meta_from_port_host_id (cfg : MLConfig) (port : Port)
    (network : Option NetworkView) :
    Except EngineError (List (String × String) × Option Nat) :=
  let host_id := port.binding_host_id
  let keyE : Except EngineError String :=
    if port.vnic_type = VNIC_DIRECT then build_sriov_host_id port host_id
    else .ok host_id
  match keyE with
  | .error e => .error e
  | .ok key =>
    .ok ((assocLookup cfg.port_mappings key).getD [],
         network.bind (fun n => n.segmentation_id))

/-- Result of get_switch_meta, keeping the two resolution strategies and the
(None, None) fallthrough apart. -/
inductive SwitchMeta
  | fromLinkInfo (ms : List (Option String × Option String)) (seg : Option Nat)
  | fromHostId (ms : List (String × String)) (seg : Option Nat)
  | noneNone
deriving DecidableEq, Repr

/-- get_switch_meta: dispatch on the port classification. -/
def get_switch_meta (cfg : MLConfig) (port : Port)
    (network : Option NetworkView) : Except EngineError SwitchMeta :=
  if port.vnic_type = VNIC_BAREMETAL then
    match switch_meta_from_link_info cfg port network with
    | .error e => .error e
    | .ok r => .ok (.fromLinkInfo r.1 r.2)
  else if port.device_owner = COMPUTE_NOVA then
    match switch_meta_from_port_host_id cfg port network with
    | .error e => .error e
    | .ok r => .ok (.fromHostId r.1 r.2)
  else .ok .noneNone

/-- mappings[0][1] of a get_switch_meta result, as the value Python compares
against a switch-port string; an empty mapping list or the (None, None)
fallthrough fails. -/
def metaFirstSwitchPort : SwitchMeta → Except EngineError (Option String)
  | .fromHostId ms _ =>
    match ms.head? with
    | none => .error .indexError
    | some m => .ok (some m.2)
  | .fromLinkInfo ms _ =>
    match ms.head? with
    | none => .error .indexError
    | some m => .ok m.2
  | .noneNone => .error .indexError

/-- The segmentation id component of a get_switch_meta result. -/
def metaSegId : SwitchMeta → Option Nat
  | .fromHostId _ s => s
  | .fromLinkInfo _ s => s
  | .noneNone => none

/-- _set_port_state: validate inputs, re-read network and trunk, and issue
exactly one device call: conf_trunk_port when a trunk exists, add_trunk_vlan
for a compute (VM) port, conf_access_port otherwise.  The segmentation id read
from network.segments[0] fails on a network with no segments. -/
def set_port_state (cfg : MLConfig) (db : DB) (port : Option Port)
    (switch_name switch_port : String) :
    Except EngineError (List DeviceCall) :=
  match port with
  | none => .error .nullPort
  | some p =>
    if switch_name = "" ∨ switch_port = "" then .error .missingSwitchInfo
    else if ¬ hasHost cfg switch_name = true then .error .unknownSwitch
    else
      match db.networks.find? (fun n => n.id = p.network_id) with
      | none => .error .networkNotFound
      | some network =>
        let trunk := db.trunks.find? (fun t => t.port_id = p.id)
        match network.segments.head? with
        | none => .error .indexError
        | some seg0 =>
          let segmentation_id := seg0.segmentation_id
          match trunk with
          | some t =>
            let trunked_vlans := t.sub_ports.map (fun sp => sp.segmentation_id)
            .ok [DeviceCall.confTrunkPort switch_name switch_port
                  segmentation_id trunked_vlans]
          | none =>
            if p.device_owner = COMPUTE_NOVA then
              .ok [DeviceCall.addTrunkVlan switch_name switch_port
                    segmentation_id]
            else
              .ok [DeviceCall.confAccessPort switch_name switch_port
                    segmentation_id]

/-- The manage_vlans eligibility test used by both network handlers:
host.get('manage_vlans', True). -/
def manageVlans (h : InventoryHost) : Bool :=
  h.manage_vlans.getD true

/-- Loop body of create_network_postcommit over the inventory.  `readDb`
yields the store state observed under each switch's lock.  An early return in
the source (stale network) aborts the remaining switches as well. -/
def create_network_go (cfg : MLConfig) (network : NetworkDict)
    (readDb : String → DB) :
    List (String × InventoryHost) → List DeviceCall
  | [] => []
  | (host_name, host) :: rest =>
    if manageVlans host then
      match network.segmentation_id with
      | some v =>
        if network.network_type = "vlan" ∧ v ≠ 0 then
          let db := readDb host_name
          match db.networks.find? (fun n => n.id = network.id) with
          | none => []
          | some net =>
            if v ∈ net.segments.map (fun s => s.segmentation_id) then
              DeviceCall.createVlan host_name v
                :: create_network_go cfg network readDb rest
            else []
        else create_network_go cfg network readDb rest
      | none => create_network_go cfg network readDb rest
    else create_network_go cfg network readDb rest

/-- create_network_postcommit: for each VLAN-managed switch, re-read the
network under the switch lock, discard the request if the network is gone or
no longer carries the triggering segmentation id, otherwise create the
VLAN. -/
def create_network_postcommit (cfg : MLConfig) (network : NetworkDict)
    (readDb : String → DB) : List DeviceCall :=
  create_network_go cfg network readDb cfg.inventory

/-- Loop body of delete_network_postcommit over the inventory.  A surviving
matching segment anywhere in the store aborts (early return in the source). -/
def delete_network_go (cfg : MLConfig) (network : NetworkDict)
    (readDb : String → DB) :
    List (String × InventoryHost) → List DeviceCall
  | [] => []
  | (host_name, host) :: rest =>
    match network.segmentation_id with
    | some v =>
      if network.network_type = "vlan" ∧ v ≠ 0 then
        if manageVlans host then
          let db := readDb host_name
          let segments := db.segments.filter
            (fun s => s.segmentation_id = v)
          if segments.any (fun s =>
              s.segmentation_id = v ∧
              s.physical_network = network.physical_network ∧
              s.network_type = "vlan") then []
          else
            DeviceCall.deleteVlan host_name v
              :: delete_network_go cfg network readDb rest
        else delete_network_go cfg network readDb rest
      else delete_network_go cfg network readDb rest
    | none => delete_network_go cfg network readDb rest

/-- delete_network_postcommit: for each VLAN-managed switch, re-query the
global segment table under the switch lock and delete the VLAN only when no
segment with the same segmentation id, physical network and vlan type
survives. -/
def delete_network_postcommit (cfg : MLConfig) (network : NetworkDict)
    (readDb : String → DB) : List DeviceCall :=
  delete_network_go cfg network readDb cfg.inventory

/-- _is_deleted_port_in_use: some still-bound port with this MAC has link
information and sits on a network with a vlan-type segment on this physical
network. -/
def is_deleted_port_in_use (db : DB) (physnet mac : String) : Bool :=
  (db.ports.filter (fun p => p.mac_address = mac)).any (fun p =>
    !p.bindings.isEmpty &&
    lliTruthy (getPortLliDb (some p)) &&
    (match db.networks.find? (fun n => n.id = p.network_id) with
     | none => false
     | some net =>
       net.segments.any (fun s =>
         s.physical_network = physnet ∧ s.network_type = "vlan")))

/-- Loop of active_port_filter over one candidate port's bindings.  `port` is
the port being deleted; its classification selects the branch.  For a direct
port the binding variable is unused and the candidate's own switch meta is
compared against the target switch port and segmentation id; otherwise the
candidate's binding host is compared against the deleted port's host id. -/
def active_port_filter_go (cfg : MLConfig) (db : DB) (port : Port)
    (switch_port : String) (segmentation_id : Option Nat) (db_port : Port) :
    List PortBinding → Except EngineError Bool
  | [] => .ok false
  | binding :: rest =>
    if port.vnic_type = VNIC_DIRECT then
      match build_sriov_host_id port port.binding_host_id with
      | .error e => .error e
      | .ok _ =>
        let db_network := db.networks.find?
          (fun n => n.id = db_port.network_id)
        match get_switch_meta cfg db_port (db_network.map dbNetworkView) with
        | .error e => .error e
        | .ok meta =>
          match metaFirstSwitchPort meta with
          | .error e => .error e
          | .ok db_switchport =>
            if db_switchport = some switch_port ∧
               metaSegId meta = segmentation_id ∧
               db_port.id ≠ port.id then .ok true
            else active_port_filter_go cfg db port switch_port
                   segmentation_id db_port rest
    else
      if binding.host = port.binding_host_id ∧ db_port.id ≠ port.id then
        .ok true
      else active_port_filter_go cfg db port switch_port
             segmentation_id db_port rest

/-- active_port_filter: does this candidate port keep the shared trunk VLAN
alive? -/
def active_port_filter (cfg : MLConfig) (db : DB) (port : Port)
    (switch_port : String) (segmentation_id : Option Nat) (db_port : Port) :
    Except EngineError Bool :=
  active_port_filter_go cfg db port switch_port segmentation_id db_port
    db_port.bindings

/-- Python's list(filter(f, l)) for a predicate that may raise: the first
raised exception propagates. -/
def filterExcept {α ε : Type} (f : α → Except ε Bool) :
    List α → Except ε (List α)
  | [] => .ok []
  | a :: as =>
    match f a with
    | .error e => .error e
    | .ok b =>
      match filterExcept f as with
      | .error e => .error e
      | .ok rest => .ok (if b then a :: rest else rest)

/-- Binding context passed into ensure_port: the segment ids pending in
port_context.segments_to_bind. -/
structure PortContext where
  segments_to_bind : List String
deriving DecidableEq, Repr

/-- ensure_port: under the switch lock, re-read the port and dispatch.  VM
ports: on delete, remove the trunk member VLAN only when no other active
compute port on the network passes active_port_filter; otherwise run
set_port_state.  Bare-metal ports that still exist with link info: run
set_port_state and commit the first pending segment as the binding.  Otherwise
delete the physical switch port unless another bound port with this MAC keeps
it in use.  The result pairs the device-call trace with the segment id bound
via port_context.set_binding, if any. -/
def ensure_port (cfg : MLConfig) (db : DB) (port : Port)
    (switch_name switch_port : String) (physnet : String)
    (port_context : Option PortContext) (segmentation_id : Option Nat)
    (delete : Bool) :
    Except EngineError (List DeviceCall × Option String) :=
  if ¬ hasHost cfg switch_name = true then .error .unknownSwitch
  else
    let updated_port := db.ports.find? (fun p => p.id = port.id)
    if port.device_owner = COMPUTE_NOVA then
      if delete then
        let active_ports := db.ports.filter (fun p =>
          p.network_id = port.network_id ∧ p.device_owner = COMPUTE_NOVA)
        match filterExcept
            (active_port_filter cfg db port switch_port segmentation_id)
            active_ports with
        | .error e => .error e
        | .ok matched =>
          if matched.isEmpty then
            .ok ([DeviceCall.deleteTrunkVlan switch_name switch_port
                   segmentation_id], none)
          else .ok ([], none)
      else
        match set_port_state cfg db (some port) switch_name switch_port with
        | .error e => .error e
        | .ok calls => .ok (calls, none)
    else if lliTruthy (getPortLliDb updated_port) then
      match set_port_state cfg db updated_port switch_name switch_port with
      | .error e => .error e
      | .ok calls =>
        match port_context with
        | some ctx =>
          match ctx.segments_to_bind.head? with
          | some seg0 => .ok (calls, some seg0)
          | none => .ok (calls, none)
        | none => .ok (calls, none)
    else
      if is_deleted_port_in_use db physnet port.mac_address then .ok ([], none)
      else .ok ([DeviceCall.deletePort switch_name switch_port], none)

/-- Modelled from the spec: the Device Operation Gateway executes a fixed set
of idempotent operations (spec sections 2 and 6); configure-access-port and
configure-trunk-port are full-replace, add-trunk-member-vlan adds one member
VLAN, delete-trunk-member-vlan removes one, delete-port unconfigures.  This
models the resulting configuration of one switch port. -/
inductive PortConfig
  | unconfigured
  | access (vlan : Nat)
  | trunk (native : Nat) (members : List Nat)
deriving DecidableEq, Repr

/-- Add a member VLAN to a trunk's member set, keeping it duplicate-free. -/
def insertVlan (v : Nat) (ms : List Nat) : List Nat :=
  if v ∈ ms then ms else ms ++ [v]

/-- Modelled from the spec: effect of one gateway call on the configuration of
the switch port (sw, sp); calls addressed elsewhere and VLAN-table calls leave
it unchanged. -/
def applyCallAt (sw sp : String) (st : PortConfig) (c : DeviceCall) :
    PortConfig :=
  match c with
  | .confAccessPort s p v => if s = sw ∧ p = sp then .access v else st
  | .confTrunkPort s p n ms => if s = sw ∧ p = sp then .trunk n ms else st
  | .addTrunkVlan s p v =>
    if s = sw ∧ p = sp then
      match st with
      | .trunk n ms => .trunk n (insertVlan v ms)
      | other => other
    else st
  | .deleteTrunkVlan s p v =>
    if s = sw ∧ p = sp then
      match st, v with
      | .trunk n ms, some w => .trunk n (ms.erase w)
      | other, _ => other
    else st
  | .deletePort s p => if s = sw ∧ p = sp then .unconfigured else st
  | _ => st

/-- Effect of a call trace on the configuration of the switch port (sw, sp). -/
def applyCallsAt (sw sp : String) (st : PortConfig) (cs : List DeviceCall) :
    PortConfig :=
  cs.foldl (applyCallAt sw sp) st

/-- The full VLAN content carried by a configure-trunk-port call: its native
VLAN followed by its member VLANs. -/
def trunkCallVlans : DeviceCall → Option (List Nat)
  | .confTrunkPort _ _ native members => some (native :: members)
  | _ => none

theorem insertVlan_idem (v : Nat) (ms : List Nat) :
    insertVlan v (insertVlan v ms) = insertVlan v ms := by
  by_cases h : v ∈ ms <;> simp [insertVlan, h, List.mem_append]

/-- Any successful set_port_state run issues exactly one call, of one of the
three port-configuring shapes, aimed at the given switch and port. -/
theorem set_port_state_ok_shape (cfg : MLConfig) (db : DB) (port : Option Port)
    (sw sp : String) (calls : List DeviceCall)
    (h : set_port_state cfg db port sw sp = .ok calls) :
    (∃ n ms, calls = [DeviceCall.confTrunkPort sw sp n ms]) ∨
    (∃ v, calls = [DeviceCall.addTrunkVlan sw sp v]) ∨
    (∃ v, calls = [DeviceCall.confAccessPort sw sp v]) := by
  cases port with
  | none => simp [set_port_state] at h
  | some p =>
    by_cases h1 : sw = "" ∨ sp = ""
    · simp [set_port_state, h1] at h
    by_cases h2 : hasHost cfg sw = true
    · cases hnet : db.networks.find? (fun n => n.id = p.network_id) with
      | none => simp [set_port_state, h1, h2, hnet] at h
      | some net =>
        cases hseg : net.segments.head? with
        | none => simp [set_port_state, h1, h2, hnet, hseg] at h
        | some seg0 =>
          cases htr : db.trunks.find? (fun t => t.port_id = p.id) with
          | some t =>
            simp [set_port_state, h1, h2, hnet, hseg, htr] at h
            exact Or.inl ⟨_, _, h.symm⟩
          | none =>
            by_cases ho : p.device_owner = COMPUTE_NOVA
            · simp [set_port_state, h1, h2, hnet, hseg, htr, ho] at h
              exact Or.inr (Or.inl ⟨_, h.symm⟩)
            · simp [set_port_state, h1, h2, hnet, hseg, htr, ho] at h
              exact Or.inr (Or.inr ⟨_, h.symm⟩)
    · simp [set_port_state, h1, h2] at h

/-- C5: set_port_state is idempotent: a second run with the control-plane
state unchanged yields the same device calls, and replaying the emitted call
trace on any device-port configuration leaves the configuration reached by
the first replay unchanged. -/
theorem C5_set_port_state_idempotent (cfg : MLConfig) (db : DB)
    (port : Option Port) (sw sp : String) (st : PortConfig)
    (calls : List DeviceCall)
    (h : set_port_state cfg db port sw sp = .ok calls) :
    set_port_state cfg db port sw sp = .ok calls ∧
    applyCallsAt sw sp (applyCallsAt sw sp st calls) calls =
      applyCallsAt sw sp st calls := by
  refine ⟨h, ?_⟩
  rcases set_port_state_ok_shape cfg db port sw sp calls h with
    ⟨n, ms, rfl⟩ | ⟨v, rfl⟩ | ⟨v, rfl⟩
  · simp [applyCallsAt, applyCallAt]
  · cases st <;> simp [applyCallsAt, applyCallAt, insertVlan_idem]
  · simp [applyCallsAt, applyCallAt]

/-- C2: at the device-call stage, set_port_state issues exactly one call: a
configure-trunk-port carrying the full current VLAN set (the network's primary
segmentation id as native VLAN plus every sub-port's segmentation id as
members) when a trunk exists for the port id; an add-trunk-member-vlan with
the primary segmentation id for a VM/compute port; a configure-access-port
with that single segmentation id otherwise. -/
theorem C2_set_port_state_call_selection (cfg : MLConfig) (db : DB) (p : Port)
    (sw sp : String) (net : Network) (seg0 : Segment) (rest : List Segment)
    (h1 : ¬(sw = "" ∨ sp = "")) (h2 : hasHost cfg sw = true)
    (hnet : db.networks.find? (fun n => n.id = p.network_id) = some net)
    (hseg : net.segments = seg0 :: rest) :
    (∀ t, db.trunks.find? (fun t => t.port_id = p.id) = some t →
      set_port_state cfg db (some p) sw sp =
        .ok [DeviceCall.confTrunkPort sw sp seg0.segmentation_id
              (t.sub_ports.map (fun s => s.segmentation_id))] ∧
      trunkCallVlans
          (DeviceCall.confTrunkPort sw sp seg0.segmentation_id
            (t.sub_ports.map (fun s => s.segmentation_id))) =
        some (seg0.segmentation_id ::
          t.sub_ports.map (fun s => s.segmentation_id))) ∧
    (db.trunks.find? (fun t => t.port_id = p.id) = none →
      p.device_owner = COMPUTE_NOVA →
      set_port_state cfg db (some p) sw sp =
        .ok [DeviceCall.addTrunkVlan sw sp seg0.segmentation_id]) ∧
    (db.trunks.find? (fun t => t.port_id = p.id) = none →
      ¬ p.device_owner = COMPUTE_NOVA →
      set_port_state cfg db (some p) sw sp =
        .ok [DeviceCall.confAccessPort sw sp seg0.segmentation_id]) := by
  refine ⟨?_, ?_, ?_⟩
  · intro t ht
    exact ⟨by simp [set_port_state, h1, h2, hnet, hseg, ht], rfl⟩
  · intro ht ho
    simp [set_port_state, h1, h2, hnet, hseg, ht, ho]
  · intro ht ho
    simp [set_port_state, h1, h2, hnet, hseg, ht, ho]

/-- C9: before its device-call stage, set_port_state fails exactly on: a null
port (InvalidArgument class), a missing switch name or switch port
(InvalidArgument class), a switch name absent from the inventory
(UnknownSwitch class), and an unreadable network (NetworkNotFound class); when
none of these hold (and the network carries a segment) it reaches the
device-call stage, issuing exactly one call. -/
theorem C9_set_port_state_failure_conditions (cfg : MLConfig) (db : DB)
    (port : Option Port) (sw sp : String) :
    (port = none → set_port_state cfg db port sw sp = .error .nullPort) ∧
    (∀ p, port = some p → (sw = "" ∨ sp = "") →
      set_port_state cfg db port sw sp = .error .missingSwitchInfo) ∧
    (∀ p, port = some p → ¬(sw = "" ∨ sp = "") → hasHost cfg sw = false →
      set_port_state cfg db port sw sp = .error .unknownSwitch) ∧
    (∀ p, port = some p → ¬(sw = "" ∨ sp = "") → hasHost cfg sw = true →
      db.networks.find? (fun n => n.id = p.network_id) = none →
      set_port_state cfg db port sw sp = .error .networkNotFound) ∧
    (∀ p net seg0 rest, port = some p → ¬(sw = "" ∨ sp = "") →
      hasHost cfg sw = true →
      db.networks.find? (fun n => n.id = p.network_id) = some net →
      net.segments = seg0 :: rest →
      ∃ c, set_port_state cfg db port sw sp = .ok [c]) := by
  refine ⟨?_, ?_, ?_, ?_, ?_⟩
  · rintro rfl; rfl
  · rintro p rfl h1; simp [set_port_state, h1]
  · rintro p rfl h1 h2; simp [set_port_state, h1, h2]
  · rintro p rfl h1 h2 hnet; simp [set_port_state, h1, h2, hnet]
  · rintro p net seg0 rest rfl h1 h2 hnet hseg
    cases htr : db.trunks.find? (fun t => t.port_id = p.id) with
    | some t =>
      exact ⟨DeviceCall.confTrunkPort sw sp seg0.segmentation_id
          (t.sub_ports.map (fun s => s.segmentation_id)),
        by simp [set_port_state, h1, h2, hnet, hseg, htr]⟩
    | none =>
      by_cases ho : p.device_owner = COMPUTE_NOVA
      · exact ⟨DeviceCall.addTrunkVlan sw sp seg0.segmentation_id,
          by simp [set_port_state, h1, h2, hnet, hseg, htr, ho]⟩
      · exact ⟨DeviceCall.confAccessPort sw sp seg0.segmentation_id,
          by simp [set_port_state, h1, h2, hnet, hseg, htr, ho]⟩

/-- C10: a switch whose inventory entry carries no manage_vlans flag is
treated by both network handlers exactly like one with the flag set to true,
and both handlers are suppressed for a switch whose flag is explicitly
false. -/
theorem C10_manage_vlans_default (name : String) (e : InventoryHost)
    (network : NetworkDict) (readDb : String → DB)
    (macs : List (String × String))
    (pm : List (String × List (String × String))) :
    (e.manage_vlans = none →
      create_network_postcommit ⟨[(name, e)], macs, pm⟩ network readDb =
        create_network_postcommit
          ⟨[(name, ⟨some true⟩)], macs, pm⟩ network readDb ∧
      delete_network_postcommit ⟨[(name, e)], macs, pm⟩ network readDb =
        delete_network_postcommit
          ⟨[(name, ⟨some true⟩)], macs, pm⟩ network readDb) ∧
    (e.manage_vlans = some false →
      create_network_postcommit ⟨[(name, e)], macs, pm⟩ network readDb = [] ∧
      delete_network_postcommit ⟨[(name, e)], macs, pm⟩ network readDb = []) := by
  constructor
  · intro h
    constructor <;>
      simp [create_network_postcommit, delete_network_postcommit,
        create_network_go, delete_network_go, manageVlans, h]
  · intro h
    constructor
    · simp [create_network_postcommit, create_network_go, manageVlans, h]
    · cases hseg : network.segmentation_id with
      | none =>
        simp [delete_network_postcommit, delete_network_go, hseg]
      | some v =>
        by_cases hv : network.network_type = "vlan" ∧ v ≠ 0
        · simp [delete_network_postcommit, delete_network_go, hseg, hv,
            manageVlans, h]
        · simp [delete_network_postcommit, delete_network_go, hseg, hv]

/-- Fixture: a link-info entry naming switch sw1, port eth0. -/
def lliA : LLIEntry :=
  { switch_id := some "aa:bb:cc", switch_info := some "sw1",
    port_id := some "eth0" }

/-- Fixture: an empty binding profile. -/
def profEmpty : Profile := { lli := none, pci_slot := none }

/-- Fixture: a profile carrying lliA. -/
def profA : Profile := { lli := some [lliA], pci_slot := none }

/-- Fixture: a bare-metal port on network n1. -/
def portBm : Port :=
  { id := "pb", mac_address := "m1", network_id := "n1",
    device_owner := "baremetal:none", vnic_type := VNIC_BAREMETAL,
    binding_host_id := "h1", profile := profA,
    bindings := [{ host := "h1", profile := profA }] }

/-- Fixture: network n1 with one vlan segment 100 on phys1. -/
def netW : Network :=
  { id := "n1",
    segments := [{ segmentation_id := 100, physical_network := "phys1",
                   network_type := "vlan" }] }

/-- Fixture: inventory holding switch sw1 without a manage_vlans flag, plus a
port mapping for host h1. -/
def cfgW : MLConfig :=
  { inventory := [("sw1", { manage_vlans := none })], mac_map := [],
    port_mappings := [("h1", [("sw1", "sp1")])] }

/-- Fixture: store holding netW and portBm. -/
def dbW : DB :=
  { networks := [netW], ports := [portBm], trunks := [], segments := [] }

/-- Fixture: a trunk on portBm with one sub-port on VLAN 60. -/
def trW : Trunk := { port_id := "pb", sub_ports := [{ segmentation_id := 60 }] }

/-- Fixture: dbW with the trunk trW added. -/
def dbTr : DB :=
  { networks := [netW], ports := [portBm], trunks := [trW], segments := [] }

/-- Fixture: the network event dictionary for netW. -/
def netDictW : NetworkDict :=
  { id := "n1", network_type := "vlan", segmentation_id := some 100,
    physical_network := "phys1" }

/-- Fixture: every switch lock observes the store dbW. -/
def readDbW : String → DB := fun _ => dbW

theorem C5_witness :
    set_port_state cfgW dbW (some portBm) "sw1" "sp1" =
      .ok [DeviceCall.confAccessPort "sw1" "sp1" 100] ∧
    applyCallsAt "sw1" "sp1"
        (applyCallsAt "sw1" "sp1" PortConfig.unconfigured
          [DeviceCall.confAccessPort "sw1" "sp1" 100])
        [DeviceCall.confAccessPort "sw1" "sp1" 100] =
      applyCallsAt "sw1" "sp1" PortConfig.unconfigured
        [DeviceCall.confAccessPort "sw1" "sp1" 100] :=
  C5_set_port_state_idempotent cfgW dbW (some portBm) "sw1" "sp1"
    PortConfig.unconfigured [DeviceCall.confAccessPort "sw1" "sp1" 100]
    rfl

theorem C2_witness :
    set_port_state cfgW dbTr (some portBm) "sw1" "sp1" =
      .ok [DeviceCall.confTrunkPort "sw1" "sp1" 100 [60]] ∧
    trunkCallVlans (DeviceCall.confTrunkPort "sw1" "sp1" 100 [60]) =
      some [100, 60] :=
  (C2_set_port_state_call_selection cfgW dbTr portBm "sw1" "sp1" netW
      { segmentation_id := 100, physical_network := "phys1",
        network_type := "vlan" } []
      (by simp) rfl rfl rfl).1 trW rfl

theorem C9_witness :
    set_port_state cfgW dbW none "sw1" "sp1" = .error .nullPort :=
  (C9_set_port_state_failure_conditions cfgW dbW none "sw1" "sp1").1 rfl

theorem C10_witness :
    create_network_postcommit ⟨[("sw1", ⟨none⟩)], [], []⟩ netDictW readDbW =
      create_network_postcommit ⟨[("sw1", ⟨some true⟩)], [], []⟩ netDictW
        readDbW ∧
    delete_network_postcommit ⟨[("sw1", ⟨none⟩)], [], []⟩ netDictW readDbW =
      delete_network_postcommit ⟨[("sw1", ⟨some true⟩)], [], []⟩ netDictW
        readDbW :=
  (C10_manage_vlans_default "sw1" ⟨none⟩ netDictW readDbW [] []).1 rfl

/-- C7: for a bare-metal port, topology resolution raises LinkInfoMissing
whenever the profile's link information is absent or empty, regardless of the
port's other fields; when link information is present it returns exactly one
(switch name, switch port) mapping whose switch port id is taken verbatim from
the first entry, with the switch name taken from the explicit switch_info
field when that is set and otherwise from the inventory's MAC-to-name table
keyed by the upper-cased switch MAC when that lookup succeeds. -/
theorem C7_link_info_resolution (cfg : MLConfig) (port : Port)
    (network : Option NetworkView) (hb : port.vnic_type = VNIC_BAREMETAL) :
    (port.profile.lli = none →
      switch_meta_from_link_info cfg port network = .error .linkInfoMissing) ∧
    (port.profile.lli = some [] →
      switch_meta_from_link_info cfg port network = .error .linkInfoMissing) ∧
    (∀ first rest, port.profile.lli = some (first :: rest) →
      (truthyStr first.switch_info = true →
        switch_meta_from_link_info cfg port network =
          .ok ([(first.switch_info, first.port_id)],
               network.bind (fun n => n.segmentation_id))) ∧
      (truthyStr first.switch_info = false →
        ∀ nm, assocLookup cfg.mac_map ((first.switch_id.getD "").toUpper) =
            some nm →
          switch_meta_from_link_info cfg port network =
            .ok ([(some nm, first.port_id)],
                 network.bind (fun n => n.segmentation_id))) ∧
      (∃ nm, switch_meta_from_link_info cfg port network =
        .ok ([(nm, first.port_id)],
             network.bind (fun n => n.segmentation_id)))) := by
  have hmem : port.vnic_type ∈ SUPPORTED_TYPES := by
    simp [hb, SUPPORTED_TYPES]
  have hlli : get_port_lli_dict (some port) = port.profile.lli := by
    simp [get_port_lli_dict, hmem]
  refine ⟨?_, ?_, ?_⟩
  · intro h; simp [switch_meta_from_link_info, hlli, h]
  · intro h; simp [switch_meta_from_link_info, hlli, h]
  · intro first rest h
    refine ⟨?_, ?_, ?_⟩
    · intro ht
      simp [switch_meta_from_link_info, hlli, h, ht]
    · intro ht nm hnm
      simp [switch_meta_from_link_info, hlli, h, ht, hnm]
    · by_cases ht : truthyStr first.switch_info = true
      · exact ⟨first.switch_info,
          by simp [switch_meta_from_link_info, hlli, h, ht]⟩
      by_cases hk :
          (assocLookup cfg.mac_map ((first.switch_id.getD "").toUpper)).isSome
      · exact ⟨assocLookup cfg.mac_map ((first.switch_id.getD "").toUpper),
          by simp [switch_meta_from_link_info, hlli, h, ht, hk]⟩
      · exact ⟨first.switch_info,
          by simp [switch_meta_from_link_info, hlli, h, ht, hk]⟩

/-- Fixture: a passthrough (direct) VM port on host h1, PCI function 0. -/
def portDirA : Port :=
  { id := "pda", mac_address := "ma", network_id := "n1",
    device_owner := COMPUTE_NOVA, vnic_type := VNIC_DIRECT,
    binding_host_id := "h1",
    profile := { lli := none, pci_slot := some "0000:03:00.0" },
    bindings := [] }

/-- Fixture: a direct VM port on the same host and PCI slot, function 1. -/
def portDirB : Port :=
  { id := "pdb", mac_address := "mb", network_id := "n1",
    device_owner := COMPUTE_NOVA, vnic_type := VNIC_DIRECT,
    binding_host_id := "h1",
    profile := { lli := none, pci_slot := some "0000:03:00.1" },
    bindings := [] }

/-- C8 counterexample: two direct ports on the same host whose device
addresses differ only in the PCI function part build the same mapping-table
key, because _build_sriov_host_id drops everything after the first dot; this
refutes the statement that two direct ports on the same host with different
device addresses always produce different keys. -/
theorem C8_counterexample :
    portDirA.vnic_type = VNIC_DIRECT ∧ portDirB.vnic_type = VNIC_DIRECT ∧
    portDirA.binding_host_id = portDirB.binding_host_id ∧
    portDirA.profile.pci_slot ≠ portDirB.profile.pci_slot ∧
    build_sriov_host_id portDirA portDirA.binding_host_id =
      build_sriov_host_id portDirB portDirB.binding_host_id ∧
    build_sriov_host_id portDirA portDirA.binding_host_id = .ok "h1-0300" :=
  ⟨rfl, rfl, rfl, by decide, rfl, rfl⟩

theorem string_data_append (a b : String) : (a ++ b).data = a.data ++ b.data :=
  rfl

theorem string_append_right_cancel (a b c : String) :
    a ++ b = a ++ c ↔ b = c := by
  constructor
  · intro h
    have hd : a.data ++ b.data = a.data ++ c.data := by
      have h2 := congrArg String.data h
      rwa [string_data_append, string_data_append] at h2
    have h3 := List.append_cancel_left hd
    cases b; cases c; exact congrArg String.mk h3
  · intro h; rw [h]

/-- C8 (amended): the mapping key is the binding host id, with the normalized
device-address suffix (PCI function dropped, 0000: domain prefix and colons
stripped) appended for direct ports; an absent key yields the empty mapping
list and no error; and two direct ports on the same host produce different
keys exactly when their normalized device addresses differ, so addresses
differing only in the PCI function part share one key. -/
theorem C8_amended_host_id_keys (cfg : MLConfig) (p q : Port)
    (network : Option NetworkView) :
    (¬ p.vnic_type = VNIC_DIRECT →
      switch_meta_from_port_host_id cfg p network =
        .ok ((assocLookup cfg.port_mappings p.binding_host_id).getD [],
             network.bind (fun n => n.segmentation_id))) ∧
    (∀ s, p.vnic_type = VNIC_DIRECT → p.profile.pci_slot = some s →
      switch_meta_from_port_host_id cfg p network =
        .ok ((assocLookup cfg.port_mappings
               (p.binding_host_id ++ "-" ++ normalizePci s)).getD [],
             network.bind (fun n => n.segmentation_id))) ∧
    (∀ key, assocLookup cfg.port_mappings key = none →
      ((assocLookup cfg.port_mappings key).getD [] :
        List (String × String)) = []) ∧
    (∀ s t, p.vnic_type = VNIC_DIRECT → q.vnic_type = VNIC_DIRECT →
      p.binding_host_id = q.binding_host_id →
      p.profile.pci_slot = some s → q.profile.pci_slot = some t →
      (build_sriov_host_id p p.binding_host_id =
         build_sriov_host_id q q.binding_host_id ↔
       normalizePci s = normalizePci t)) := by
  refine ⟨?_, ?_, ?_, ?_⟩
  · intro h
    simp [switch_meta_from_port_host_id, h]
  · intro s hd hs
    simp [switch_meta_from_port_host_id, build_sriov_host_id, hd, hs]
  · intro key hk
    simp [hk]
  · intro s t hd1 hd2 hh hs ht
    simp [build_sriov_host_id, hs, ht, hh, string_append_right_cancel]

theorem C8_witness :
    switch_meta_from_port_host_id cfgW portDirA
      (some { segmentation_id := some 100 }) =
      .ok ((assocLookup cfgW.port_mappings
             ("h1" ++ "-" ++ normalizePci "0000:03:00.0")).getD [],
           some 100) :=
  (C8_amended_host_id_keys cfgW portDirA portDirB
    (some { segmentation_id := some 100 })).2.1 "0000:03:00.0" rfl rfl

theorem C7_witness :
    switch_meta_from_link_info cfgW portBm
      (some { segmentation_id := some 100 }) =
      .ok ([(some "sw1", some "eth0")], some 100) :=
  ((C7_link_info_resolution cfgW portBm
      (some { segmentation_id := some 100 }) rfl).2.2 lliA [] rfl).1 rfl

/-- C3: a create-vlan device call for a switch is issued only when, in the
store state read under that switch's lock, the network still exists and its
current segment set still contains the triggering segmentation id; on a stale
network the handler returns without any device call for that switch and, being
a total function into a call list, raises nothing. -/
theorem C3_create_network_freshness (cfg : MLConfig) (network : NetworkDict)
    (readDb : String → DB) (h : String) (v : Nat)
    (hmem : DeviceCall.createVlan h v ∈
      create_network_postcommit cfg network readDb) :
    network.segmentation_id = some v ∧ network.network_type = "vlan" ∧
    v ≠ 0 ∧
    ∃ net, (readDb h).networks.find? (fun n => n.id = network.id) = some net ∧
      v ∈ net.segments.map (fun s => s.segmentation_id) := by
  rw [create_network_postcommit] at hmem
  revert hmem
  induction cfg.inventory with
  | nil => intro hmem; simp [create_network_go] at hmem
  | cons e rest ih =>
    obtain ⟨name, host⟩ := e
    intro hmem
    simp only [create_network_go] at hmem
    by_cases hmv : manageVlans host = true
    · simp only [hmv, if_true] at hmem
      cases hseg : network.segmentation_id with
      | none =>
        simp only [hseg] at hmem
        have hr := ih hmem
        rwa [hseg] at hr
      | some w =>
        simp only [hseg] at hmem
        by_cases hvt : network.network_type = "vlan" ∧ w ≠ 0
        · rw [if_pos hvt] at hmem
          cases hnet : (readDb name).networks.find?
              (fun n => n.id = network.id) with
          | none => simp only [hnet] at hmem; simp at hmem
          | some net =>
            simp only [hnet] at hmem
            by_cases hin : w ∈ net.segments.map (fun s => s.segmentation_id)
            · rw [if_pos hin] at hmem
              rcases List.mem_cons.mp hmem with heq | htl
              · obtain ⟨rfl, rfl⟩ := DeviceCall.createVlan.inj heq
                exact ⟨rfl, hvt.1, hvt.2, net, hnet, hin⟩
              · have hr := ih htl
                rwa [hseg] at hr
            · rw [if_neg hin] at hmem; simp at hmem
        · rw [if_neg hvt] at hmem
          have hr := ih hmem
          rwa [hseg] at hr
    · simp only [Bool.not_eq_true] at hmv
      simp only [hmv] at hmem
      simp at hmem
      exact ih hmem

/-- C4: a delete-vlan device call for a switch is issued only when, in the
store state read under that switch's lock, no segment anywhere in the global
segment table matches the triggering segmentation id, physical network and
vlan network type; a surviving matching segment discards the deletion with no
device call and, the handler being a total function into a call list, no
error. -/
theorem C4_delete_network_segment_check (cfg : MLConfig)
    (network : NetworkDict) (readDb : String → DB) (h : String) (v : Nat)
    (hmem : DeviceCall.deleteVlan h v ∈
      delete_network_postcommit cfg network readDb) :
    network.segmentation_id = some v ∧
    ∀ seg ∈ (readDb h).segments,
      ¬(seg.segmentation_id = v ∧
        seg.physical_network = network.physical_network ∧
        seg.network_type = "vlan") := by
  rw [delete_network_postcommit] at hmem
  revert hmem
  induction cfg.inventory with
  | nil => intro hmem; simp [delete_network_go] at hmem
  | cons e rest ih =>
    obtain ⟨name, host⟩ := e
    intro hmem
    simp only [delete_network_go] at hmem
    cases hseg : network.segmentation_id with
    | none =>
      simp only [hseg] at hmem
      have hr := ih hmem
      rwa [hseg] at hr
    | some w =>
      simp only [hseg] at hmem
      by_cases hvt : network.network_type = "vlan" ∧ w ≠ 0
      · rw [if_pos hvt] at hmem
        by_cases hmv : manageVlans host = true
        · simp only [hmv, if_true] at hmem
          by_cases hany : (((readDb name).segments.filter
                (fun s => s.segmentation_id = w)).any (fun s =>
              s.segmentation_id = w ∧
              s.physical_network = network.physical_network ∧
              s.network_type = "vlan")) = true
          · rw [if_pos hany] at hmem; simp at hmem
          · rw [if_neg hany] at hmem
            rcases List.mem_cons.mp hmem with heq | htl
            · obtain ⟨rfl, rfl⟩ := DeviceCall.deleteVlan.inj heq
              refine ⟨rfl, ?_⟩
              intro seg hsmem htriple
              apply hany
              simp only [List.any_eq_true, decide_eq_true_eq]
              exact ⟨seg, List.mem_filter.mpr
                ⟨hsmem, by simp [htriple.1]⟩, htriple⟩
            · have hr := ih htl
              rwa [hseg] at hr
        · simp only [Bool.not_eq_true] at hmv
          simp only [hmv] at hmem
          simp at hmem
          have hr := ih hmem
          rwa [hseg] at hr
      · rw [if_neg hvt] at hmem
        have hr := ih hmem
        rwa [hseg] at hr

theorem C3_witness :
    netDictW.segmentation_id = some 100 ∧ netDictW.network_type = "vlan" ∧
    (100 : Nat) ≠ 0 ∧
    ∃ net, (readDbW "sw1").networks.find? (fun n => n.id = netDictW.id) =
        some net ∧
      100 ∈ net.segments.map (fun s => s.segmentation_id) :=
  C3_create_network_freshness cfgW netDictW readDbW "sw1" 100 (by decide)

theorem C4_witness :
    netDictW.segmentation_id = some 100 ∧
    ∀ seg ∈ (readDbW "sw1").segments,
      ¬(seg.segmentation_id = 100 ∧
        seg.physical_network = netDictW.physical_network ∧
        seg.network_type = "vlan") :=
  C4_delete_network_segment_check cfgW netDictW readDbW "sw1" 100 (by decide)

/-- C6: when the re-read port no longer exists (and the port is not a VM
port), ensure_port leaves the switch port configured and makes no device call
if another still-bound port with the same MAC has link information and sits on
a network with a vlan-type segment on the same physical network; otherwise it
issues exactly one delete-port call.  The final conjunct characterises the
in-use check exactly as that existential condition. -/
theorem C6_deleted_port_cleanup (cfg : MLConfig) (db : DB) (port : Port)
    (sw sp physnet : String) (ctx : Option PortContext)
    (segid : Option Nat) (del : Bool)
    (hhost : hasHost cfg sw = true)
    (howner : ¬ port.device_owner = COMPUTE_NOVA)
    (hgone : db.ports.find? (fun p => p.id = port.id) = none) :
    (is_deleted_port_in_use db physnet port.mac_address = true →
      ensure_port cfg db port sw sp physnet ctx segid del = .ok ([], none)) ∧
    (is_deleted_port_in_use db physnet port.mac_address = false →
      ensure_port cfg db port sw sp physnet ctx segid del =
        .ok ([DeviceCall.deletePort sw sp], none)) ∧
    (is_deleted_port_in_use db physnet port.mac_address = true ↔
      ∃ p ∈ db.ports, p.mac_address = port.mac_address ∧ p.bindings ≠ [] ∧
        lliTruthy (getPortLliDb (some p)) = true ∧
        ∃ net, db.networks.find? (fun n => n.id = p.network_id) = some net ∧
          ∃ seg ∈ net.segments, seg.physical_network = physnet ∧
            seg.network_type = "vlan") := by
  refine ⟨?_, ?_, ?_⟩
  · intro hu
    simp [ensure_port, hhost, howner, hgone, getPortLliDb, lliTruthy, hu]
  · intro hu
    simp [ensure_port, hhost, howner, hgone, getPortLliDb, lliTruthy, hu]
  · constructor
    · intro hu
      rw [is_deleted_port_in_use, List.any_eq_true] at hu
      obtain ⟨p, hpin, hp⟩ := hu
      obtain ⟨hpmem, hpmac⟩ := List.mem_filter.mp hpin
      rw [Bool.and_eq_true, Bool.and_eq_true] at hp
      obtain ⟨⟨ha, hb⟩, hc⟩ := hp
      cases hfind : db.networks.find? (fun n => n.id = p.network_id) with
      | none => simp only [hfind] at hc; exact absurd hc (by simp)
      | some net =>
        simp only [hfind] at hc
        rw [List.any_eq_true] at hc
        obtain ⟨seg, hsin, hseg⟩ := hc
        obtain ⟨hphys, htype⟩ := of_decide_eq_true hseg
        exact ⟨p, hpmem, of_decide_eq_true hpmac, by simpa using ha, hb,
          net, hfind, seg, hsin, hphys, htype⟩
    · rintro ⟨p, hpmem, hpmac, hbne, hl, net, hfind, seg, hsin, hphys, htype⟩
      rw [is_deleted_port_in_use, List.any_eq_true]
      refine ⟨p, List.mem_filter.mpr ⟨hpmem, by simp [hpmac]⟩, ?_⟩
      rw [Bool.and_eq_true, Bool.and_eq_true]
      refine ⟨⟨by simpa using hbne, hl⟩, ?_⟩
      simp only [hfind]
      rw [List.any_eq_true]
      exact ⟨seg, hsin, by simp [hphys, htype]⟩

/-- Fixture: a store in which portBm has been deleted and nothing keeps its
MAC in use. -/
def db6 : DB := { networks := [netW], ports := [], trunks := [], segments := [] }

theorem C6_witness :
    ensure_port cfgW db6 portBm "sw1" "sp1" "phys1" none (some 100) true =
      .ok ([DeviceCall.deletePort "sw1" "sp1"], none) :=
  (C6_deleted_port_cleanup cfgW db6 portBm "sw1" "sp1" "phys1" none (some 100)
    true rfl (by decide) rfl).2.1 rfl

/-- When the deleted port is not a direct (passthrough) port, the active-port
filter never raises and reduces to: some binding of the candidate matches the
deleted port's binding host id, and the ids differ. -/
theorem active_port_filter_go_nondirect (cfg : MLConfig) (db : DB)
    (port : Port) (sp : String) (segid : Option Nat) (q : Port)
    (hnd : ¬ port.vnic_type = VNIC_DIRECT) (bs : List PortBinding) :
    active_port_filter_go cfg db port sp segid q bs =
      .ok (bs.any (fun b =>
        b.host = port.binding_host_id ∧ q.id ≠ port.id)) := by
  induction bs with
  | nil => simp [active_port_filter_go]
  | cons b bs ih =>
    rw [active_port_filter_go, if_neg hnd]
    by_cases hc : b.host = port.binding_host_id ∧ q.id ≠ port.id
    · simp [hc]
    · simp [hc, ih]

/-- Python list(filter(f, l)) for a predicate that never raises agrees with
the declarative filter. -/
theorem filterExcept_ok {α ε : Type} (f : α → Except ε Bool) (g : α → Bool)
    (l : List α) (hfg : ∀ a ∈ l, f a = .ok (g a)) :
    filterExcept f l = .ok (l.filter g) := by
  induction l with
  | nil => rfl
  | cons a as ih =>
    rw [filterExcept, hfg a (by simp),
      ih (fun x hx => hfg x (by simp [hx]))]
    by_cases hg : g a = true
    · simp [List.filter_cons, hg]
    · simp [List.filter_cons, hg]

/-- C1: on a VM-port deletion, ensure_port issues no device call when the
filtered list of other active compute ports sharing the trunk location is
non-empty, and exactly one delete-trunk-member-vlan call for the target switch
port and segmentation id when it is empty.  For a non-passthrough deleted
port, membership in that filtered list is exactly: another port owned by a
compute instance on the same network, one of whose bindings sits on the
deleted port's binding host id, with a different port id. -/
theorem C1_vm_delete_shared_vlan (cfg : MLConfig) (db : DB) (port : Port)
    (sw sp physnet : String) (ctx : Option PortContext) (segid : Option Nat)
    (matched : List Port)
    (hhost : hasHost cfg sw = true)
    (howner : port.device_owner = COMPUTE_NOVA)
    (hf : filterExcept (active_port_filter cfg db port sp segid)
        (db.ports.filter (fun p =>
          p.network_id = port.network_id ∧ p.device_owner = COMPUTE_NOVA)) =
      .ok matched) :
    (matched ≠ [] →
      ensure_port cfg db port sw sp physnet ctx segid true = .ok ([], none)) ∧
    (matched = [] →
      ensure_port cfg db port sw sp physnet ctx segid true =
        .ok ([DeviceCall.deleteTrunkVlan sw sp segid], none)) ∧
    (¬ port.vnic_type = VNIC_DIRECT →
      ∀ q, q ∈ matched ↔
        q ∈ db.ports ∧ q.network_id = port.network_id ∧
        q.device_owner = COMPUTE_NOVA ∧
        (∃ b ∈ q.bindings, b.host = port.binding_host_id) ∧
        ¬ q.id = port.id) := by
  refine ⟨?_, ?_, ?_⟩
  · intro hne
    simp only [Bool.decide_and] at hf
    cases matched with
    | nil => exact absurd rfl hne
    | cons q qs => simp [ensure_port, hhost, howner, hf]
  · intro hnil
    subst hnil
    simp only [Bool.decide_and] at hf
    simp [ensure_port, hhost, howner, hf]
  · intro hnd q
    have hpt : ∀ x ∈ (db.ports.filter (fun p =>
        p.network_id = port.network_id ∧ p.device_owner = COMPUTE_NOVA)),
        active_port_filter cfg db port sp segid x =
          .ok (x.bindings.any (fun b =>
            b.host = port.binding_host_id ∧ x.id ≠ port.id)) := by
      intro x _
      rw [active_port_filter]
      exact active_port_filter_go_nondirect cfg db port sp segid x hnd
        x.bindings
    have hfe := filterExcept_ok
      (active_port_filter cfg db port sp segid)
      (fun x => x.bindings.any (fun b =>
        b.host = port.binding_host_id ∧ x.id ≠ port.id))
      (db.ports.filter (fun p =>
        p.network_id = port.network_id ∧ p.device_owner = COMPUTE_NOVA))
      hpt
    rw [hf] at hfe
    have hm : matched = (db.ports.filter (fun p =>
        p.network_id = port.network_id ∧ p.device_owner = COMPUTE_NOVA)).filter
          (fun x => x.bindings.any (fun b =>
            b.host = port.binding_host_id ∧ x.id ≠ port.id)) :=
      Except.ok.inj hfe
    rw [hm]
    simp only [List.mem_filter, List.any_eq_true, decide_eq_true_eq,
      Bool.and_eq_true]
    constructor
    · rintro ⟨⟨hqmem, hqnet, hqown⟩, b, hbmem, hbh, hqid⟩
      exact ⟨hqmem, hqnet, hqown, ⟨b, hbmem, hbh⟩, hqid⟩
    · rintro ⟨hqmem, hqnet, hqown, ⟨b, hbmem, hbh⟩, hqid⟩
      exact ⟨⟨hqmem, hqnet, hqown⟩, b, hbmem, hbh, hqid⟩

/-- Fixture: a VM (compute-owned) port on network n1, bound to host h1. -/
def portVm1 : Port :=
  { id := "p1", mac_address := "mv1", network_id := "n1",
    device_owner := COMPUTE_NOVA, vnic_type := VNIC_NORMAL,
    binding_host_id := "h1", profile := profEmpty,
    bindings := [{ host := "h1", profile := profEmpty }] }

/-- Fixture: a second VM port on the same network and host. -/
def portVm2 : Port :=
  { id := "p2", mac_address := "mv2", network_id := "n1",
    device_owner := COMPUTE_NOVA, vnic_type := VNIC_NORMAL,
    binding_host_id := "h1", profile := profEmpty,
    bindings := [{ host := "h1", profile := profEmpty }] }

/-- Fixture: the store after portVm1 was deleted, with portVm2 still
active. -/
def dbVm : DB :=
  { networks := [netW], ports := [portVm2], trunks := [], segments := [] }

theorem C1_witness :
    ensure_port cfgW dbVm portVm1 "sw1" "sp1" "phys1" none (some 100) true =
      .ok ([], none) :=
  (C1_vm_delete_shared_vlan cfgW dbVm portVm1 "sw1" "sp1" "phys1" none
    (some 100) [portVm2] rfl rfl (by rfl)).1 (by simp)
